import Mathlib

/-!
Verification development for the water-value-database reporting pipeline.

The definitions below are a shallow embedding of the Python sources:
  * `scripts/01_summary_tables.py`   (table generators, CSV export)
  * `scripts/02_completeness_heatmap.py` (completeness percentages)
  * `scripts/03_analytical_charts.py` (chart 1 rolling means, chart 2 display)
  * `scripts/04_run_pipeline.py`     (step runner, exit codes)

Conventions of the embedding:
  * a pandas DataFrame column is a `List String` (or a list of records);
  * machine floats of the Python code are modelled as exact rationals `ℚ`;
  * `count / n_total` in Python raises `ZeroDivisionError` when `n_total = 0`,
    so every percentage computation is `Option`-valued (`none` = the raised
    exception) and the generators return `Option`/`Except` results;
  * Python's stable `list.sort` / `sorted` is modelled by
    `List.insertionSort` with a non-strict comparison relation, which has the
    same stable behaviour on ties.
-/

namespace WaterValueDB

/-- Model of Python `round(x, 1)` on exact rationals: round to one decimal
place, halves up.  (CPython rounds float ties to even, but the two agree on
every value occurring in the claims, none of which is an exact tie.) -/
def round1 (q : ℚ) : ℚ := (⌊q * 10 + 1/2⌋ : ℚ) / 10

/-- Model of the Python expression `count / n_total * 100`: raises
`ZeroDivisionError` (`none`) when `n_total = 0`. -/
def pctOpt (count n_total : Nat) : Option ℚ :=
  if n_total = 0 then none else some ((count : ℚ) / (n_total : ℚ) * 100)

/-- A Python `for` loop that builds one output row per input element and may
raise (`none`) on any element — exceptions propagate to the caller. -/
def mapMO {α β : Type} (f : α → Option β) : List α → Option (List β)
  | [] => some []
  | a :: l => do
    let b ← f a
    let bs ← mapMO f l
    pure (b :: bs)

/-- Code-point lexicographic comparison of character lists, as Python compares
strings. -/
def charListLe : List Char → List Char → Bool
  | [], _ => true
  | _ :: _, [] => false
  | a :: as, b :: bs =>
    if a.toNat < b.toNat then true
    else if b.toNat < a.toNat then false
    else charListLe as bs

/-- Python string comparison `a <= b` (code-point lexicographic order). -/
def str_le (a b : String) : Prop := charListLe a.data b.data = true

instance : DecidableRel str_le := fun a b =>
  inferInstanceAs (Decidable (charListLe a.data b.data = true))

/-- Descending-by-count comparison used by `rows.sort(key=..., reverse=True)`
on `(label, count)` pairs (pandas `value_counts` ordering). -/
def pairCountGe (a b : String × Nat) : Prop := b.2 ≤ a.2

instance : DecidableRel pairCountGe := fun a b => Nat.decLe b.2 a.2

instance : IsTotal (String × Nat) pairCountGe :=
  ⟨fun a b => (Nat.le_total b.2 a.2).imp (fun h => h) (fun h => h)⟩

instance : IsTrans (String × Nat) pairCountGe :=
  ⟨fun _ _ _ h1 h2 => Nat.le_trans h2 h1⟩

/-- `pd.Series.value_counts()`: the distinct values of a column with their
multiplicities, sorted by descending count (stably, first occurrence first). -/
def value_counts (xs : List String) : List (String × Nat) :=
  List.insertionSort pairCountGe (xs.dedup.map (fun v => (v, xs.count v)))

/-- `pd.Series.nunique()`: number of distinct values. -/
def nunique (xs : List String) : Nat := xs.dedup.length

/-- A row of Tables 2, 3 and 4 (label column, `Count`, `Percentage`). -/
structure Row3 where
  label : String
  Count : Nat
  Percentage : ℚ
deriving DecidableEq, Repr

instance : Inhabited Row3 := ⟨⟨"", 0, 0⟩⟩

/-- Descending-by-`Count` comparison on `Row3`
(`rows.sort(key=lambda x: x["Count"], reverse=True)`). -/
def row3CountGe (a b : Row3) : Prop := b.Count ≤ a.Count

instance : DecidableRel row3CountGe := fun a b => Nat.decLe b.Count a.Count

instance : IsTotal Row3 row3CountGe :=
  ⟨fun a b => (Nat.le_total b.Count a.Count).imp (fun h => h) (fun h => h)⟩

instance : IsTrans Row3 row3CountGe :=
  ⟨fun _ _ _ h1 h2 => Nat.le_trans h2 h1⟩

/-- A row of Table 1 (`Category`, `Category_Name`, `Count`, `Percentage`). -/
structure Table1Row where
  Category : String
  Category_Name : String
  Count : Nat
  Percentage : ℚ
deriving DecidableEq, Repr

instance : Inhabited Table1Row := ⟨⟨"", "", 0, 0⟩⟩

/-- The `CATEGORY_NAMES` dictionary of `01_summary_tables.py`. -/
def CATEGORY_NAMES (c : String) : Option String :=
  if c = "A" then some "Hydropower scheduling and water values"
  else if c = "B" then some "Stochastic programming for hydropower"
  else if c = "C" then some "Hydro-economic modelling"
  else if c = "D" then some "Irrigation and agricultural water value"
  else if c = "E" then some "Urban and municipal water value"
  else if c = "F" then some "Environmental and ecological water value"
  else if c = "G" then some "Multi-purpose reservoir operation"
  else if c = "H" then some "Water markets and pricing"
  else if c = "R" then some "Review / Other"
  else none

/-- The loop body of Table 1: one category turned into a display row with its
rounded percentage. -/
def classification_row (classifications : List String) (n_total : Nat)
    (cat : String) : Option Table1Row := do
  let count := classifications.count cat
  let pct ← pctOpt count n_total
  pure ⟨cat, (CATEGORY_NAMES cat).getD "[Category name — see article.txt]",
        count, round1 pct⟩

/-- `generate_classification_table` (Table 1): one row per distinct
`Classification` value, in ascending alphabetical order
(`sorted(counts.index)`), followed by the `Total` row.  The argument is the
`Classification` column of the classification table. -/
def generate_classification_table (classifications : List String) :
    Option (List Table1Row) := do
  let n_total := classifications.length
  let cats := List.insertionSort str_le classifications.dedup
  let rows ← mapMO (classification_row classifications n_total) cats
  pure (rows ++ [⟨"Total", "", n_total, 100⟩])

/-- The shared loop body of Tables 2 and 3: one `(label, count)` entry turned
into a display row with its rounded percentage. -/
def count_pct_row (n_total : Nat) (rc : String × Nat) : Option Row3 := do
  let pct ← pctOpt rc.2 n_total
  pure ⟨rc.1, rc.2, round1 pct⟩

/-- `generate_method_table` (Table 2): one row per distinct `Method_clean`
value, sorted by descending count, followed by the `Total` row.  The argument
is the `Method_clean` column of the classification table. -/
def generate_method_table (methods : List String) : Option (List Row3) := do
  let n_total := methods.length
  let rows ← mapMO (count_pct_row n_total) (value_counts methods)
  let rows := List.insertionSort row3CountGe rows
  pure (rows ++ [⟨"Total", n_total, 100⟩])

/-- The `always_show` set of `generate_region_table`: region categories shown
individually regardless of their count. -/
def always_show : List String := ["Not specified", "Synthetic/Theoretical"]

/-- The region-count threshold of `generate_region_table`: regions with fewer
than 3 papers are grouped under "Other". -/
def REGION_COUNT_THRESHOLD : Nat := 3

/-- The classification loop of `generate_region_table`: walk the
`value_counts` entries accumulating `(main_entries, other_count,
n_other_entries)`.  Sentinel regions and regions with count ≥ 3 go to
`main_entries`; the rest are pooled into the Other bucket. -/
def region_partition : List (String × Nat) → List (String × Nat) × Nat × Nat
  | [] => ([], 0, 0)
  | rc :: rest =>
    let prev := region_partition rest
    if rc.1 ∈ always_show then (rc :: prev.1, prev.2.1, prev.2.2)
    else if REGION_COUNT_THRESHOLD ≤ rc.2 then (rc :: prev.1, prev.2.1, prev.2.2)
    else (prev.1, prev.2.1 + rc.2, prev.2.2 + 1)

/-- The individually-listed `(region, count)` entries of Table 3. -/
def region_main_entries (regions : List String) : List (String × Nat) :=
  (region_partition (value_counts regions)).1

/-- The total count pooled into Table 3's "Other" bucket. -/
def region_other_count (regions : List String) : Nat :=
  (region_partition (value_counts regions)).2.1

/-- The number of regions pooled into Table 3's "Other" bucket. -/
def region_n_other_entries (regions : List String) : Nat :=
  (region_partition (value_counts regions)).2.2

/-- `generate_region_table` (Table 3): individually-listed regions plus an
optional "Other (N countries/regions)" bucket row, all sorted together by
descending count, followed by the `Total` row.  The final `pctOpt` call models
the `not_specified_pct` caption computation, which divides by `n_total`
unconditionally.  The argument is the `Study_region_clean` column. -/
def generate_region_table (regions : List String) : Option (List Row3) := do
  let n_total := regions.length
  let main_entries := region_main_entries regions
  let other_count := region_other_count regions
  let n_other_entries := region_n_other_entries regions
  let rows ← mapMO (count_pct_row n_total) main_entries
  let rows ← (if 0 < other_count then do
      let pct ← pctOpt other_count n_total
      pure (rows ++ [(⟨s!"Other ({n_other_entries} countries/regions)",
                      other_count, round1 pct⟩ : Row3)])
    else pure rows)
  let rows := List.insertionSort row3CountGe rows
  let _ ← pctOpt (regions.count "Not specified") n_total
  pure (rows ++ [⟨"Total", n_total, 100⟩])

/-- The fixed `decade_order` bins of `generate_year_table`. -/
def decade_order : List String :=
  ["Pre-2000", "2000–2004", "2005–2009", "2010–2014", "2015–2019", "2020–2025"]

/-- The loop body of Table 4: one year-range bin turned into a display row
with its rounded percentage. -/
def year_row (decades : List String) (n_total : Nat) (decade : String) :
    Option Row3 := do
  let count := decades.count decade
  let pct ← pctOpt count n_total
  pure ⟨decade, count, round1 pct⟩

/-- `generate_year_table` (Table 4): one row per fixed year-range bin (in
chronological order), followed by the `Total` row.  The argument is the
`Decade` column of the classification table. -/
def generate_year_table (decades : List String) : Option (List Row3) := do
  let n_total := decades.length
  let rows ← mapMO (year_row decades n_total) decade_order
  pure (rows ++ [⟨"Total", n_total, 100⟩])

/-- A row of the `water_values` table, restricted to the columns used by
Tables 5 and 6 and the completeness computation. -/
structure WVRow where
  ID : String
  Country_clean : String
  Continent : String
  Purpose_clean : String
  Method_clean : String
  Method_detail : String
  units_clean : String
  Paper_year : Int
  WV_median_raw : Option ℚ
deriving DecidableEq, Repr

/-- A row of Table 6. -/
structure Table6Row where
  Purpose : String
  Data_Points_Count : Nat
  Papers_Count : Nat
  Countries_Count : Nat
  Continents_Count : Nat
  Pct_of_Data_Points : ℚ
deriving DecidableEq, Repr

instance : Inhabited Table6Row := ⟨⟨"", 0, 0, 0, 0, 0⟩⟩

/-- Descending-by-`Data_Points_Count` comparison on `Table6Row`
(`sort_values("Data_Points_Count", ascending=False)`). -/
def t6CountGe (a b : Table6Row) : Prop := b.Data_Points_Count ≤ a.Data_Points_Count

instance : DecidableRel t6CountGe := fun a b =>
  Nat.decLe b.Data_Points_Count a.Data_Points_Count

/-- The loop body of Table 6: the aggregate row of one purpose group. -/
def purpose_row (df_wv : List WVRow) (n_total : Nat) (p : String) :
    Option Table6Row := do
  let grp := df_wv.filter (fun r => r.Purpose_clean == p)
  let pct ← pctOpt grp.length n_total
  pure ⟨p, grp.length, nunique (grp.map (fun r => r.ID)),
        nunique (grp.map (fun r => r.Country_clean)),
        nunique (grp.map (fun r => r.Continent)), round1 pct⟩

/-- `generate_wv_purpose_table` (Table 6): `groupby("Purpose_clean")` (keys in
ascending order) with size / nunique aggregates, sorted by descending data
point count, followed by the `Total` row.  Percentages are added per group; no
division occurs when the input is empty because there are no groups. -/
def generate_wv_purpose_table (df_wv : List WVRow) : Option (List Table6Row) := do
  let n_total := df_wv.length
  let purposes := List.insertionSort str_le (df_wv.map (fun r => r.Purpose_clean)).dedup
  let purpose_stats ← mapMO (purpose_row df_wv n_total) purposes
  let purpose_stats := List.insertionSort t6CountGe purpose_stats
  pure (purpose_stats ++
    [⟨"Total", n_total, nunique (df_wv.map (fun r => r.ID)),
      nunique (df_wv.map (fun r => r.Country_clean)),
      nunique (df_wv.map (fun r => r.Continent)), 100⟩])

/-! ### Table 5 (`generate_wv_summary_table`) -/

/-- Model of `f"{x:.1f}"`: format with one decimal place, halves up (CPython
formats float ties to even; no tie occurs in the claims). -/
def fmt1 (q : ℚ) : String :=
  let m := ⌊q * 10 + 1/2⌋
  s!"{m / 10}.{m % 10}"

/-- `Series.mode().iloc[0]`: the smallest among the most frequent values;
raises (`none`) on an empty column. -/
def mode_first (xs : List String) : Option String :=
  let mx := (xs.dedup.map (fun v => xs.count v)).foldr max 0
  (List.insertionSort str_le (xs.dedup.filter (fun v => xs.count v == mx))).head?

/-- The largest group size of `df.groupby("ID").size()`. -/
def points_max (ids : List String) : Nat :=
  (ids.dedup.map (fun k => ids.count k)).foldr max 0

/-- `df.groupby("ID").size().idxmax()`: the first key, in the ascending group
order, whose group is largest; raises (`none`) on an empty frame. -/
def points_idxmax (ids : List String) : Option String :=
  let keys := List.insertionSort str_le ids.dedup
  (keys.filter (fun k => ids.count k == points_max ids)).head?

/-- `generate_wv_summary_table` (Table 5): the sixteen `(Statistic, Value)`
string pairs.  (The Python function also receives `df_class`, which it never
reads.)  `min`/`mode`/`idxmax` and the final percentage raise on an empty
input, modelled by `none`. -/
def generate_wv_summary_table (df_wv : List WVRow) :
    Option (List (String × String)) := do
  let n_papers_with_wv := nunique (df_wv.map (fun r => r.ID))
  let n_data_points := df_wv.length
  let n_countries := nunique (df_wv.map (fun r => r.Country_clean))
  let n_continents := nunique (df_wv.map (fun r => r.Continent))
  let n_methods_clean := nunique (df_wv.map (fun r => r.Method_clean))
  let n_methods_detail := nunique (df_wv.map (fun r => r.Method_detail))
  let n_purposes := nunique (df_wv.map (fun r => r.Purpose_clean))
  let n_units := nunique (df_wv.map (fun r => r.units_clean))
  let yr_min ← (df_wv.map (fun r => r.Paper_year)).min?
  let yr_max ← (df_wv.map (fun r => r.Paper_year)).max?
  let most_common_purpose ← mode_first (df_wv.map (fun r => r.Purpose_clean))
  let most_common_unit ← mode_first (df_wv.map (fun r => r.units_clean))
  let most_common_country ← mode_first (df_wv.map (fun r => r.Country_clean))
  let most_common_method ← mode_first (df_wv.map (fun r => r.Method_clean))
  let avg_points := (n_data_points : ℚ) / (n_papers_with_wv : ℚ)
  let max_points := points_max (df_wv.map (fun r => r.ID))
  let max_paper_id ← points_idxmax (df_wv.map (fun r => r.ID))
  let n_median_filled := df_wv.countP (fun r => r.WV_median_raw.isSome)
  let pct_median ← pctOpt n_median_filled n_data_points
  pure [
    ("Total papers reporting numerical water values", toString n_papers_with_wv),
    ("Total water value data points", toString n_data_points),
    ("Countries represented", toString n_countries),
    ("Continents represented", toString n_continents),
    ("Method categories (manuscript-level)", toString n_methods_clean),
    ("Method types (detailed)", toString n_methods_detail),
    ("Purpose categories", toString n_purposes),
    ("Unique unit types", toString n_units),
    ("Publication year range", s!"{yr_min}–{yr_max}"),
    ("Most common purpose", most_common_purpose),
    ("Most common unit", most_common_unit),
    ("Most common country", most_common_country),
    ("Most common method", most_common_method),
    ("Average data points per paper", fmt1 avg_points),
    ("Maximum data points (single paper)", s!"{max_points} (ID: {max_paper_id})"),
    ("WV_median_raw completeness",
      s!"{n_median_filled}/{n_data_points} ({fmt1 pct_median}%)")]

/-! ### Chart 2 (`create_geographic_distribution`, 03_analytical_charts.py) -/

/-- The `special_categories` set of Chart 2 (same two sentinel labels as
Table 3's `always_show`). -/
def special_categories : List String := ["Not specified", "Synthetic/Theoretical"]

/-- `regular_sorted`: the non-sentinel `(region, count)` entries, sorted by
descending count. -/
def chart2_regular_sorted (regions : List String) : List (String × Nat) :=
  List.insertionSort pairCountGe
    ((value_counts regions).filter (fun rc => !special_categories.contains rc.1))

/-- `top_15 = regular_sorted[:15]`. -/
def chart2_top_15 (regions : List String) : List (String × Nat) :=
  (chart2_regular_sorted regions).take 15

/-- `other_count = sum(count for _, count in regular_sorted[15:])`. -/
def chart2_other_count (regions : List String) : Nat :=
  (((chart2_regular_sorted regions).drop 15).map (fun rc => rc.2)).sum

/-- `n_other = len(regular_sorted[15:])`. -/
def chart2_n_other (regions : List String) : Nat :=
  ((chart2_regular_sorted regions).drop 15).length

/-- `display_data` of Chart 2, bottom to top: the sentinel categories present
in the data, then the "Other" bucket when non-empty, then the top 15 regions
in reverse order. -/
def chart2_display_data (regions : List String) : List (String × Nat) :=
  (special_categories.filter (fun c => 0 < regions.count c)).map
      (fun c => (c, regions.count c))
    ++ (if 0 < chart2_other_count regions then
          [(s!"Other ({chart2_n_other regions} regions)", chart2_other_count regions)]
        else [])
    ++ (chart2_top_15 regions).reverse

/-! ### Chart 1 trendlines (`create_year_method_stacked`) -/

/-- Exact-rational model of
`Series.rolling(window=w, center=True, min_periods=m).mean()` for the odd
window sizes used in Chart 1: at index `i` the centered window covers the
positions within `w / 2` of `i`; the mean is defined when at least `m` of them
are inside the series, `NaN` (here `none`) otherwise. -/
def rolling_mean_centered (window min_periods : Nat) (xs : List ℚ) :
    List (Option ℚ) :=
  let n := xs.length
  let half := window / 2
  (List.range n).map (fun i =>
    let lo := i - half
    let hi := min (i + half) (n - 1)
    let vals := (xs.drop lo).take (hi + 1 - lo)
    if min_periods ≤ vals.length then some (vals.sum / (vals.length : ℚ))
    else none)

/-- The number of series positions that fall inside the centered window of
half-width `half` around index `i`, in a series of length `n`. -/
def periods_in_window (n i half : Nat) : Nat :=
  ((List.range n).filter (fun j => decide (i ≤ j + half) && decide (j ≤ i + half))).length

/-! ### Pipeline runner (`04_run_pipeline.py`) -/

/-- Outcome of `subprocess.run` on one pipeline step. -/
inductive RunResult where
  | completed (returncode : Int)
  | timedOut
  | raisedError
deriving DecidableEq, Repr

/-- Environment of one `run_step` call: whether the step's script file
exists, how the child process ended, and which expected output files are
missing afterwards. -/
structure StepExec where
  script_exists : Bool
  result : RunResult
  missing_outputs : List String
deriving DecidableEq, Repr

/-- `run_step`: returns the success flag and the list of missing outputs it
reports as warnings.  Missing script, timeout, exception and non-zero exit are
failures; missing outputs after a successful run are warnings only. -/
def run_step (e : StepExec) : Bool × List String :=
  if e.script_exists = false then (false, [])
  else match e.result with
    | .timedOut => (false, [])
    | .raisedError => (false, [])
    | .completed code => if code ≠ 0 then (false, []) else (true, e.missing_outputs)

/-- The step loop of `main`: record each step's success flag; when a step
fails and the full sequence was requested (`args.step == 0`), break, leaving
the remaining steps unexecuted. -/
def run_sequence (step_arg : Int) : List StepExec → List Bool
  | [] => []
  | e :: rest =>
    let success := (run_step e).1
    if success = false ∧ step_arg = 0 then [success]
    else success :: run_sequence step_arg rest

/-- The step numbers of the `STEPS` table. -/
def STEP_NUMBERS : List Int := [1, 2, 3]

/-- `steps_to_run`: a single step when `0 < step_arg`, otherwise all steps. -/
def runner_steps_to_run (step_arg : Int) : List Int :=
  if 0 < step_arg then STEP_NUMBERS.filter (fun n => n = step_arg) else STEP_NUMBERS

/-- The success flags recorded by the runner, given each step's execution
environment. -/
def runner_results (step_arg : Int) (behavior : Int → StepExec) : List Bool :=
  run_sequence step_arg ((runner_steps_to_run step_arg).map behavior)

/-- `check_prerequisites`: succeeds exactly when the database file exists. -/
def check_prerequisites (db_exists : Bool) : Bool := db_exists

/-- The process exit code of the runner's `main`: 1 when the database is
missing, when a positive step argument matches no step, or when any executed
step failed; 0 otherwise. -/
def runner_main (db_exists : Bool) (step_arg : Int) (behavior : Int → StepExec) :
    Int :=
  if check_prerequisites db_exists = false then 1
  else if 0 < step_arg ∧ runner_steps_to_run step_arg = [] then 1
  else if 0 < (runner_results step_arg behavior).countP (fun b => b = false) then 1
  else 0

/-! ### Loading, export and the generator entry points -/

/-- The relevant columns of the three tables of the SQLite store.
`Classification`, `Method_clean`, `Study_region_clean` and `Decade` are
columns of the `classification` table; `water_values` holds the rows of the
`water_values` table. -/
structure Database where
  Classification : List String
  Method_clean : List String
  Study_region_clean : List String
  Decade : List String
  water_values : List WVRow

/-- The descriptive `FileNotFoundError` message of `load_data`. -/
def db_missing_msg : String :=
  "SQLite database not found: data/water_value_database.db\n"
    ++ "Run 01_data_preparation.py and 02_derived_variables.py first."

/-- `load_data`: raises `FileNotFoundError` before reading any table when the
database file is missing (`none`); otherwise materializes the tables. -/
def load_data (db_file : Option Database) : Except String Database :=
  match db_file with
  | none => .error db_missing_msg
  | some db => .ok db

/-- Lift an `Option`-valued computation (a Python exception) into the
script-level `Except`. -/
def ofOption {α : Type} (o : Option α) : Except String α :=
  match o with
  | none => .error "ZeroDivisionError: division by zero"
  | some a => .ok a

/-- Render a percentage that is an exact multiple of 1/10 (every `Percentage`
cell is `round1` output or the literal `100.0`) the way pandas' CSV writer
prints it. -/
def renderPct (q : ℚ) : String :=
  let m := ⌊q * 10⌋
  s!"{m / 10}.{m % 10}"

/-- `table_1_classification.csv` (UTF-8-sig: leading BOM). -/
def to_csv_table1 (t : List Table1Row) : String :=
  "\uFEFF" ++ "Category,Category_Name,Count,Percentage\n"
    ++ String.join (t.map (fun r =>
        r.Category ++ "," ++ r.Category_Name ++ "," ++ toString r.Count ++ ","
          ++ renderPct r.Percentage ++ "\n"))

/-- CSV export of a `Row3` table with the given label-column header. -/
def to_csv_row3 (label_header : String) (t : List Row3) : String :=
  "\uFEFF" ++ label_header ++ ",Count,Percentage\n"
    ++ String.join (t.map (fun r =>
        r.label ++ "," ++ toString r.Count ++ "," ++ renderPct r.Percentage ++ "\n"))

/-- `table_5_wv_summary.csv`. -/
def to_csv_table5 (t : List (String × String)) : String :=
  "\uFEFF" ++ "Statistic,Value\n"
    ++ String.join (t.map (fun r => r.1 ++ "," ++ r.2 ++ "\n"))

/-- `table_6_wv_purpose.csv`. -/
def to_csv_table6 (t : List Table6Row) : String :=
  "\uFEFF" ++ "Purpose,Data_Points_Count,Papers_Count,Countries_Count,"
    ++ "Continents_Count,Pct_of_Data_Points\n"
    ++ String.join (t.map (fun r =>
        r.Purpose ++ "," ++ toString r.Data_Points_Count ++ ","
          ++ toString r.Papers_Count ++ "," ++ toString r.Countries_Count ++ ","
          ++ toString r.Continents_Count ++ "," ++ renderPct r.Pct_of_Data_Points
          ++ "\n"))

/-- The six generated tables of `01_summary_tables.py`. -/
structure SummaryTables where
  table_1 : List Table1Row
  table_2 : List Row3
  table_3 : List Row3
  table_4 : List Row3
  table_5 : List (String × String)
  table_6 : List Table6Row

/-- The files written by `export_tables`: the six CSV files and the formatted
text file (which embeds the generation timestamp). -/
structure SummaryOutputs where
  table_1_csv : String
  table_2_csv : String
  table_3_csv : String
  table_4_csv : String
  table_5_csv : String
  table_6_csv : String
  all_tables_formatted : String

/-- Steps 2–7 of `main` in `01_summary_tables.py`: generate the six tables
from the loaded data.  Any `ZeroDivisionError` aborts the script. -/
def summary_tables_core (db : Database) : Except String SummaryTables := do
  let t1 ← ofOption (generate_classification_table db.Classification)
  let t2 ← ofOption (generate_method_table db.Method_clean)
  let t3 ← ofOption (generate_region_table db.Study_region_clean)
  let t4 ← ofOption (generate_year_table db.Decade)
  let t5 ← ofOption (generate_wv_summary_table db.water_values)
  let t6 ← ofOption (generate_wv_purpose_table db.water_values)
  pure ⟨t1, t2, t3, t4, t5, t6⟩

/-- `export_tables`: the CSV files are functions of the tables alone; the
formatted text file additionally embeds `datetime.now()` (the fixed-width
table rendering is abstracted as the same deterministic cell rendering used
for CSV). -/
def export_tables (ts : SummaryTables) (now : String) : SummaryOutputs where
  table_1_csv := to_csv_table1 ts.table_1
  table_2_csv := to_csv_row3 "Method" ts.table_2
  table_3_csv := to_csv_row3 "Country_or_Region" ts.table_3
  table_4_csv := to_csv_row3 "Year_Range" ts.table_4
  table_5_csv := to_csv_table5 ts.table_5
  table_6_csv := to_csv_table6 ts.table_6
  all_tables_formatted :=
    "Water Value Database — Summary Tables\nGenerated: " ++ now ++ "\n"
      ++ to_csv_table1 ts.table_1 ++ to_csv_row3 "Method" ts.table_2
      ++ to_csv_row3 "Country_or_Region" ts.table_3
      ++ to_csv_row3 "Year_Range" ts.table_4 ++ to_csv_table5 ts.table_5
      ++ to_csv_table6 ts.table_6

/-- `main` of `01_summary_tables.py`: load, generate, export.  `now` is the
wall-clock timestamp read during export. -/
def summary_tables_main (db_file : Option Database) (now : String) :
    Except String SummaryOutputs := do
  let db ← load_data db_file
  let ts ← summary_tables_core db
  pure (export_tables ts now)

/-- The six CSV files written by `01_summary_tables.py`, as
`(filename, bytes)` pairs. -/
def summary_csv_exports (o : SummaryOutputs) : List (String × String) :=
  [("table_1_classification.csv", o.table_1_csv),
   ("table_2_methods.csv", o.table_2_csv),
   ("table_3_regions.csv", o.table_3_csv),
   ("table_4_years.csv", o.table_4_csv),
   ("table_5_wv_summary.csv", o.table_5_csv),
   ("table_6_wv_purpose.csv", o.table_6_csv)]

/-- `main` of `03_analytical_charts.py`, reduced to the data it computes:
load, then build the chart data (the image rendering is presentation; of the
computed data, Chart 2's bar list is the part the claims are about). -/
def analytical_charts_main (db_file : Option Database) :
    Except String (List (String × Nat)) := do
  let db ← load_data db_file
  pure (chart2_display_data db.Study_region_clean)

/-- `calculate_completeness` of `02_completeness_heatmap.py`, for one column:
`((1 - isna().mean()) * 100).round(0).astype(int)`; the `mean()` of an empty
column is `NaN` and `astype(int)` then raises (`none`). -/
def completeness_pct {α : Type} (col : List (Option α)) : Option Int :=
  if col.length = 0 then none
  else some ⌊(1 - (col.countP (fun v => v.isNone) : ℚ) / (col.length : ℚ)) * 100 + 1/2⌋

/-- `main` of `02_completeness_heatmap.py`, reduced to the data it computes:
load, then compute per-column completeness percentages (of the original
nullable columns carried by the embedding, `WV_median_raw`). -/
def completeness_heatmap_main (db_file : Option Database) :
    Except String (List (String × Int)) := do
  let db ← load_data db_file
  let pct ← ofOption (completeness_pct (db.water_values.map (fun r => r.WV_median_raw)))
  pure [("WV_median_raw", pct)]

/-! ### Helper lemmas -/

theorem mapMO_eq_map {α β : Type} (f : α → Option β) (g : α → β) :
    ∀ l : List α, (∀ a ∈ l, f a = some (g a)) → mapMO f l = some (l.map g) := by
  intro l
  induction l with
  | nil => intro _; rfl
  | cons a t ih =>
    intro h
    have ha := h a (List.mem_cons_self a t)
    have ht := ih (fun b hb => h b (List.mem_cons_of_mem a hb))
    simp [mapMO, ha, ht]

theorem sum_map_indicator (a : String) :
    ∀ cats : List String,
      (cats.map (fun v => if v = a then (1 : ℕ) else 0)).sum = cats.count a := by
  intro cats
  induction cats with
  | nil => simp
  | cons b t ih =>
    rcases eq_or_ne b a with hba | hba
    · subst hba; simp [List.count_cons, ih]; omega
    · simp [List.count_cons, ih, hba, Ne.symm hba]

/-- Summing the multiplicities of `l` over any duplicate-free list of values
that covers `l` recovers the length of `l`. -/
theorem sum_count_superset (l : List String) :
    ∀ cats : List String, cats.Nodup → (∀ x ∈ l, x ∈ cats) →
      (cats.map (fun v => l.count v)).sum = l.length := by
  induction l with
  | nil => intro cats _ _; simp
  | cons a t ih =>
    intro cats hnd hsub
    have ha : a ∈ cats := hsub a (List.mem_cons_self a t)
    have hcount : ∀ v, (a :: t).count v = t.count v + (if v = a then 1 else 0) := by
      intro v
      rcases eq_or_ne v a with hva | hva
      · subst hva; simp [List.count_cons]
      · simp [List.count_cons, hva]
    calc (cats.map (fun v => (a :: t).count v)).sum
        = (cats.map (fun v => t.count v + (if v = a then 1 else 0))).sum := by
          exact congrArg List.sum (List.map_congr_left (fun v _ => hcount v))
      _ = (cats.map (fun v => t.count v)).sum
            + (cats.map (fun v => if v = a then (1 : ℕ) else 0)).sum := by
          rw [← List.sum_map_add]
      _ = t.length + cats.count a := by
          rw [ih cats hnd (fun x hx => hsub x (List.mem_cons_of_mem a hx)),
            sum_map_indicator]
      _ = (a :: t).length := by
          rw [List.count_eq_one_of_mem hnd ha]; simp [Nat.add_comm]

/-- Summing the multiplicities over the deduplicated value list recovers the
length. -/
theorem sum_count_dedup (l : List String) :
    (l.dedup.map (fun v => l.count v)).sum = l.length :=
  sum_count_superset l l.dedup l.nodup_dedup (fun _ hx => List.mem_dedup.mpr hx)

/-- `round1` moves a rational by at most half of one decimal unit. -/
theorem abs_round1_sub_le (q : ℚ) : |round1 q - q| ≤ 1 / 20 := by
  have h1 : (⌊q * 10 + 1/2⌋ : ℚ) ≤ q * 10 + 1/2 := Int.floor_le _
  have h2 : q * 10 + 1/2 < (⌊q * 10 + 1/2⌋ : ℚ) + 1 := Int.lt_floor_add_one _
  have hrw : round1 q - q = ((⌊q * 10 + 1/2⌋ : ℚ) - q * 10) / 10 := by
    unfold round1; ring
  rw [hrw, abs_le]
  constructor
  · linarith
  · linarith

/-- Rounding every entry of a list to one decimal place moves the sum by at
most `1/20` per entry. -/
theorem abs_sum_round1_sub_le (l : List ℚ) :
    |(l.map round1).sum - l.sum| ≤ (l.length : ℚ) * (1 / 20) := by
  induction l with
  | nil => simp
  | cons q t ih =>
    have h := abs_round1_sub_le q
    have habs : |round1 q + (t.map round1).sum - (q + t.sum)|
        ≤ |round1 q - q| + |(t.map round1).sum - t.sum| := by
      have := abs_add (round1 q - q) ((t.map round1).sum - t.sum)
      calc |round1 q + (t.map round1).sum - (q + t.sum)|
          = |(round1 q - q) + ((t.map round1).sum - t.sum)| := by ring_nf
        _ ≤ _ := this
    simp only [List.map_cons, List.sum_cons, List.length_cons]
    push_cast
    calc |round1 q + (t.map round1).sum - (q + t.sum)|
        ≤ |round1 q - q| + |(t.map round1).sum - t.sum| := habs
      _ ≤ 1 / 20 + (t.length : ℚ) * (1 / 20) := add_le_add h ih
      _ = ((t.length : ℚ) + 1) * (1 / 20) := by ring

/-- The exact (unrounded) percentages of counts summing to `n` sum to 100. -/
theorem sum_pct_eq_100 (counts : List ℕ) (n : ℕ) (hn : n ≠ 0)
    (hs : counts.sum = n) :
    (counts.map (fun (c : ℕ) => (c : ℚ) / (n : ℚ) * 100)).sum = 100 := by
  have key : ∀ l : List ℕ,
      (l.map (fun (c : ℕ) => (c : ℚ) / (n : ℚ) * 100)).sum
        = ((l.sum : ℕ) : ℚ) / (n : ℚ) * 100 := by
    intro l
    induction l with
    | nil => simp
    | cons a t ih =>
      simp only [List.map_cons, List.sum_cons, ih]
      push_cast
      ring
  rw [key, hs]
  have hne : (n : ℚ) ≠ 0 := Nat.cast_ne_zero.mpr hn
  field_simp

/-- Rounded percentages of counts summing to `n` sum to 100 within `1/20` per
row. -/
theorem counts_pct_close (counts : List ℕ) (n : ℕ) (hn : n ≠ 0)
    (hs : counts.sum = n) :
    |(counts.map (fun (c : ℕ) => round1 ((c : ℚ) / (n : ℚ) * 100))).sum - 100|
      ≤ (counts.length : ℚ) * (1 / 20) := by
  have h1 := abs_sum_round1_sub_le
    (counts.map (fun (c : ℕ) => (c : ℚ) / (n : ℚ) * 100))
  rw [sum_pct_eq_100 counts n hn hs] at h1
  simpa [List.map_map, Function.comp] using h1

/-! ### Explicit forms of the generators on non-empty input -/

theorem classification_row_eq (cls : List String) (hn : cls.length ≠ 0)
    (cat : String) :
    classification_row cls cls.length cat = some
      ⟨cat, (CATEGORY_NAMES cat).getD "[Category name — see article.txt]",
       cls.count cat, round1 ((cls.count cat : ℚ) / (cls.length : ℚ) * 100)⟩ := by
  simp [classification_row, pctOpt, hn]

theorem generate_classification_table_eq (cls : List String)
    (hn : cls.length ≠ 0) :
    generate_classification_table cls = some
      ((List.insertionSort str_le cls.dedup).map (fun cat =>
          (⟨cat, (CATEGORY_NAMES cat).getD "[Category name — see article.txt]",
            cls.count cat,
            round1 ((cls.count cat : ℚ) / (cls.length : ℚ) * 100)⟩ : Table1Row))
        ++ [⟨"Total", "", cls.length, 100⟩]) := by
  have h := mapMO_eq_map (classification_row cls cls.length)
    (fun cat =>
      (⟨cat, (CATEGORY_NAMES cat).getD "[Category name — see article.txt]",
        cls.count cat,
        round1 ((cls.count cat : ℚ) / (cls.length : ℚ) * 100)⟩ : Table1Row))
    (List.insertionSort str_le cls.dedup)
    (fun a _ => classification_row_eq cls hn a)
  simp [generate_classification_table, h]

theorem count_pct_row_eq (n : Nat) (hn : n ≠ 0) (rc : String × Nat) :
    count_pct_row n rc
      = some ⟨rc.1, rc.2, round1 ((rc.2 : ℚ) / (n : ℚ) * 100)⟩ := by
  simp [count_pct_row, pctOpt, hn]

theorem generate_method_table_eq (methods : List String)
    (hn : methods.length ≠ 0) :
    generate_method_table methods = some
      (List.insertionSort row3CountGe ((value_counts methods).map (fun rc =>
          (⟨rc.1, rc.2,
            round1 ((rc.2 : ℚ) / (methods.length : ℚ) * 100)⟩ : Row3)))
        ++ [⟨"Total", methods.length, 100⟩]) := by
  have h := mapMO_eq_map (count_pct_row methods.length)
    (fun rc =>
      (⟨rc.1, rc.2, round1 ((rc.2 : ℚ) / (methods.length : ℚ) * 100)⟩ : Row3))
    (value_counts methods)
    (fun a _ => count_pct_row_eq methods.length hn a)
  simp [generate_method_table, h]

theorem generate_region_table_eq (regions : List String)
    (hn : regions.length ≠ 0) :
    generate_region_table regions = some
      (List.insertionSort row3CountGe
          ((region_main_entries regions).map (fun rc =>
              (⟨rc.1, rc.2,
                round1 ((rc.2 : ℚ) / (regions.length : ℚ) * 100)⟩ : Row3))
            ++ (if 0 < region_other_count regions then
                  [⟨s!"Other ({region_n_other_entries regions} countries/regions)",
                    region_other_count regions,
                    round1 ((region_other_count regions : ℚ)
                      / (regions.length : ℚ) * 100)⟩]
                else []))
        ++ [⟨"Total", regions.length, 100⟩]) := by
  have h := mapMO_eq_map (count_pct_row regions.length)
    (fun rc =>
      (⟨rc.1, rc.2, round1 ((rc.2 : ℚ) / (regions.length : ℚ) * 100)⟩ : Row3))
    (region_main_entries regions)
    (fun a _ => count_pct_row_eq regions.length hn a)
  by_cases hoc : 0 < region_other_count regions
  · simp [generate_region_table, h, hoc, pctOpt, hn]
  · simp [generate_region_table, h, hoc, pctOpt, hn]

theorem year_row_eq (decades : List String) (hn : decades.length ≠ 0)
    (d : String) :
    year_row decades decades.length d = some
      ⟨d, decades.count d,
       round1 ((decades.count d : ℚ) / (decades.length : ℚ) * 100)⟩ := by
  simp [year_row, pctOpt, hn]

theorem generate_year_table_eq (decades : List String)
    (hn : decades.length ≠ 0) :
    generate_year_table decades = some
      (decade_order.map (fun d =>
          (⟨d, decades.count d,
            round1 ((decades.count d : ℚ) / (decades.length : ℚ) * 100)⟩ : Row3))
        ++ [⟨"Total", decades.length, 100⟩]) := by
  have h := mapMO_eq_map (year_row decades decades.length)
    (fun d =>
      (⟨d, decades.count d,
        round1 ((decades.count d : ℚ) / (decades.length : ℚ) * 100)⟩ : Row3))
    decade_order
    (fun a _ => year_row_eq decades hn a)
  simp [generate_year_table, h]

theorem purpose_row_eq (wv : List WVRow) (hn : wv.length ≠ 0) (p : String) :
    purpose_row wv wv.length p = some
      ⟨p, (wv.filter (fun r => r.Purpose_clean == p)).length,
       nunique ((wv.filter (fun r => r.Purpose_clean == p)).map (fun r => r.ID)),
       nunique ((wv.filter (fun r => r.Purpose_clean == p)).map
         (fun r => r.Country_clean)),
       nunique ((wv.filter (fun r => r.Purpose_clean == p)).map
         (fun r => r.Continent)),
       round1 (((wv.filter (fun r => r.Purpose_clean == p)).length : ℚ)
         / (wv.length : ℚ) * 100)⟩ := by
  simp [purpose_row, pctOpt, hn]

theorem generate_wv_purpose_table_eq (wv : List WVRow) (hn : wv.length ≠ 0) :
    generate_wv_purpose_table wv = some
      (List.insertionSort t6CountGe
          ((List.insertionSort str_le (wv.map (fun r => r.Purpose_clean)).dedup).map
            (fun p =>
              (⟨p, (wv.filter (fun r => r.Purpose_clean == p)).length,
                nunique ((wv.filter (fun r => r.Purpose_clean == p)).map
                  (fun r => r.ID)),
                nunique ((wv.filter (fun r => r.Purpose_clean == p)).map
                  (fun r => r.Country_clean)),
                nunique ((wv.filter (fun r => r.Purpose_clean == p)).map
                  (fun r => r.Continent)),
                round1 (((wv.filter (fun r => r.Purpose_clean == p)).length : ℚ)
                  / (wv.length : ℚ) * 100)⟩ : Table6Row)))
        ++ [⟨"Total", wv.length, nunique (wv.map (fun r => r.ID)),
             nunique (wv.map (fun r => r.Country_clean)),
             nunique (wv.map (fun r => r.Continent)), 100⟩]) := by
  have h := mapMO_eq_map (purpose_row wv wv.length)
    (fun p =>
      (⟨p, (wv.filter (fun r => r.Purpose_clean == p)).length,
        nunique ((wv.filter (fun r => r.Purpose_clean == p)).map (fun r => r.ID)),
        nunique ((wv.filter (fun r => r.Purpose_clean == p)).map
          (fun r => r.Country_clean)),
        nunique ((wv.filter (fun r => r.Purpose_clean == p)).map
          (fun r => r.Continent)),
        round1 (((wv.filter (fun r => r.Purpose_clean == p)).length : ℚ)
          / (wv.length : ℚ) * 100)⟩ : Table6Row))
    (List.insertionSort str_le (wv.map (fun r => r.Purpose_clean)).dedup)
    (fun a _ => purpose_row_eq wv hn a)
  simp [generate_wv_purpose_table, h]

/-! ### Count sums of the generated tables -/

theorem sum_count_sorted_dedup (l : List String) :
    ((List.insertionSort str_le l.dedup).map (fun v => l.count v)).sum
      = l.length := by
  apply sum_count_superset
  · exact ((List.perm_insertionSort str_le l.dedup).nodup_iff).mpr l.nodup_dedup
  · intro x hx
    exact ((List.perm_insertionSort str_le l.dedup).mem_iff).mpr
      (List.mem_dedup.mpr hx)

theorem sum_value_counts (xs : List String) :
    ((value_counts xs).map (fun rc => rc.2)).sum = xs.length := by
  have hperm :=
    (List.perm_insertionSort pairCountGe
      (xs.dedup.map (fun v => (v, xs.count v)))).map (fun rc : String × Nat => rc.2)
  rw [value_counts, hperm.sum_eq, List.map_map]
  exact sum_count_dedup xs

theorem region_partition_sum (l : List (String × Nat)) :
    ((region_partition l).1.map (fun rc => rc.2)).sum + (region_partition l).2.1
      = (l.map (fun rc => rc.2)).sum := by
  induction l with
  | nil => simp [region_partition]
  | cons rc rest ih =>
    simp only [region_partition, List.map_cons, List.sum_cons]
    split_ifs <;> simp <;> omega

theorem region_entries_sum (regions : List String) :
    ((region_main_entries regions).map (fun rc => rc.2)).sum
      + region_other_count regions = regions.length := by
  have h := region_partition_sum (value_counts regions)
  rw [region_main_entries, region_other_count]
  rw [h, sum_value_counts]

theorem length_filter_eq_count_map {α : Type} (l : List α) (f : α → String)
    (p : String) :
    (l.filter (fun r => f r == p)).length = (l.map f).count p := by
  simp only [List.count, List.countP_map, ← List.countP_eq_length_filter]
  rfl

theorem t1_sums (cls : List String) (hn : cls.length ≠ 0) (t1 : List Table1Row)
    (h1 : generate_classification_table cls = some t1) :
    (t1.dropLast.map (fun r => r.Count)).sum = (t1.getLastD default).Count
      ∧ |(t1.dropLast.map (fun r => r.Percentage)).sum - 100|
          ≤ (t1.dropLast.length : ℚ) * (1 / 20) := by
  rw [generate_classification_table_eq cls hn] at h1
  obtain rfl := (Option.some.inj h1).symm
  rw [List.dropLast_concat, List.getLastD_concat]
  constructor
  · rw [List.map_map]
    exact sum_count_sorted_dedup cls
  · have h := counts_pct_close
      ((List.insertionSort str_le cls.dedup).map (fun v => cls.count v))
      cls.length hn (sum_count_sorted_dedup cls)
    simpa [List.map_map, Function.comp] using h

theorem t2_sums (methods : List String) (hn : methods.length ≠ 0)
    (t2 : List Row3) (h2 : generate_method_table methods = some t2) :
    (t2.dropLast.map (fun r => r.Count)).sum = (t2.getLastD default).Count
      ∧ |(t2.dropLast.map (fun r => r.Percentage)).sum - 100|
          ≤ (t2.dropLast.length : ℚ) * (1 / 20) := by
  rw [generate_method_table_eq methods hn] at h2
  obtain rfl := (Option.some.inj h2).symm
  rw [List.dropLast_concat, List.getLastD_concat]
  have hperm := List.perm_insertionSort row3CountGe
    ((value_counts methods).map (fun rc =>
      (⟨rc.1, rc.2, round1 ((rc.2 : ℚ) / (methods.length : ℚ) * 100)⟩ : Row3)))
  constructor
  · rw [(hperm.map (fun r => r.Count)).sum_eq, List.map_map]
    exact sum_value_counts methods
  · have h := counts_pct_close ((value_counts methods).map (fun rc => rc.2))
      methods.length hn (sum_value_counts methods)
    rw [(hperm.map (fun r => r.Percentage)).sum_eq, hperm.length_eq]
    simpa [List.map_map, Function.comp] using h

theorem t4_sums (decades : List String) (hn : decades.length ≠ 0)
    (hdec : ∀ d ∈ decades, d ∈ decade_order) (t4 : List Row3)
    (h4 : generate_year_table decades = some t4) :
    (t4.dropLast.map (fun r => r.Count)).sum = (t4.getLastD default).Count
      ∧ |(t4.dropLast.map (fun r => r.Percentage)).sum - 100|
          ≤ (t4.dropLast.length : ℚ) * (1 / 20) := by
  rw [generate_year_table_eq decades hn] at h4
  obtain rfl := (Option.some.inj h4).symm
  rw [List.dropLast_concat, List.getLastD_concat]
  have hsum : (decade_order.map (fun d => decades.count d)).sum = decades.length :=
    sum_count_superset decades decade_order (by decide) hdec
  constructor
  · rw [List.map_map]
    exact hsum
  · have h := counts_pct_close (decade_order.map (fun d => decades.count d))
      decades.length hn hsum
    simpa [List.map_map, Function.comp] using h

/-- The non-total rows of Table 3, before sorting. -/
def region_unsorted_rows (regions : List String) : List Row3 :=
  (region_main_entries regions).map (fun rc =>
      (⟨rc.1, rc.2, round1 ((rc.2 : ℚ) / (regions.length : ℚ) * 100)⟩ : Row3))
    ++ (if 0 < region_other_count regions then
          [⟨s!"Other ({region_n_other_entries regions} countries/regions)",
            region_other_count regions,
            round1 ((region_other_count regions : ℚ)
              / (regions.length : ℚ) * 100)⟩]
        else [])

/-- The count column of Table 3's non-total rows, as raw numbers. -/
def region_unsorted_counts (regions : List String) : List Nat :=
  (region_main_entries regions).map (fun rc => rc.2)
    ++ (if 0 < region_other_count regions then [region_other_count regions] else [])

theorem region_unsorted_counts_sum (regions : List String) :
    (region_unsorted_counts regions).sum = regions.length := by
  have h := region_entries_sum regions
  rw [region_unsorted_counts]
  by_cases hoc : 0 < region_other_count regions
  · rw [if_pos hoc, List.sum_append, List.sum_cons, List.sum_nil]
    omega
  · rw [if_neg hoc, List.append_nil]
    omega

theorem region_rows_count_col (regions : List String) :
    (region_unsorted_rows regions).map (fun r => r.Count)
      = region_unsorted_counts regions := by
  rw [region_unsorted_rows, region_unsorted_counts, List.map_append, List.map_map]
  by_cases hoc : 0 < region_other_count regions <;> simp [hoc]

theorem region_rows_pct_col (regions : List String) :
    (region_unsorted_rows regions).map (fun r => r.Percentage)
      = (region_unsorted_counts regions).map (fun (c : ℕ) =>
          round1 ((c : ℚ) / (regions.length : ℚ) * 100)) := by
  rw [region_unsorted_rows, region_unsorted_counts, List.map_append,
    List.map_append, List.map_map, List.map_map]
  by_cases hoc : 0 < region_other_count regions <;> simp [hoc, Function.comp]

theorem t3_sums (regions : List String) (hn : regions.length ≠ 0)
    (t3 : List Row3) (h3 : generate_region_table regions = some t3) :
    (t3.dropLast.map (fun r => r.Count)).sum = (t3.getLastD default).Count
      ∧ |(t3.dropLast.map (fun r => r.Percentage)).sum - 100|
          ≤ (t3.dropLast.length : ℚ) * (1 / 20) := by
  rw [generate_region_table_eq regions hn] at h3
  obtain rfl := (Option.some.inj h3).symm
  rw [List.dropLast_concat, List.getLastD_concat]
  have hperm := List.perm_insertionSort row3CountGe (region_unsorted_rows regions)
  have hcounts := region_unsorted_counts_sum regions
  constructor
  · rw [show List.insertionSort row3CountGe
        ((region_main_entries regions).map (fun rc =>
            (⟨rc.1, rc.2, round1 ((rc.2 : ℚ) / (regions.length : ℚ) * 100)⟩ : Row3))
          ++ _) = List.insertionSort row3CountGe (region_unsorted_rows regions)
        from rfl,
      (hperm.map (fun r => r.Count)).sum_eq, region_rows_count_col]
    exact hcounts
  · have h := counts_pct_close (region_unsorted_counts regions) regions.length hn
      hcounts
    rw [show List.insertionSort row3CountGe
        ((region_main_entries regions).map (fun rc =>
            (⟨rc.1, rc.2, round1 ((rc.2 : ℚ) / (regions.length : ℚ) * 100)⟩ : Row3))
          ++ _) = List.insertionSort row3CountGe (region_unsorted_rows regions)
        from rfl,
      (hperm.map (fun r => r.Percentage)).sum_eq, region_rows_pct_col,
      hperm.length_eq]
    have hlen : (region_unsorted_rows regions).length
        = (region_unsorted_counts regions).length := by
      rw [← region_rows_count_col, List.length_map]
    rw [hlen]
    exact h

theorem t6_sums (wv : List WVRow) (hn : wv.length ≠ 0) (t6 : List Table6Row)
    (h6 : generate_wv_purpose_table wv = some t6) :
    (t6.dropLast.map (fun r => r.Data_Points_Count)).sum
        = (t6.getLastD default).Data_Points_Count
      ∧ |(t6.dropLast.map (fun r => r.Pct_of_Data_Points)).sum - 100|
          ≤ (t6.dropLast.length : ℚ) * (1 / 20) := by
  rw [generate_wv_purpose_table_eq wv hn] at h6
  obtain rfl := (Option.some.inj h6).symm
  rw [List.dropLast_concat, List.getLastD_concat]
  set ps := List.insertionSort str_le (wv.map (fun r => r.Purpose_clean)).dedup
    with hps
  have hgrp : ∀ p : String,
      (wv.filter (fun r => r.Purpose_clean == p)).length
        = (wv.map (fun r => r.Purpose_clean)).count p := fun p =>
    length_filter_eq_count_map wv (fun r => r.Purpose_clean) p
  have hsum : (ps.map (fun p =>
      (wv.filter (fun r => r.Purpose_clean == p)).length)).sum = wv.length := by
    rw [List.map_congr_left (fun p _ => hgrp p)]
    have := sum_count_sorted_dedup (wv.map (fun r => r.Purpose_clean))
    rw [← hps] at this
    rw [this, List.length_map]
  have hperm := List.perm_insertionSort t6CountGe (ps.map (fun p =>
    (⟨p, (wv.filter (fun r => r.Purpose_clean == p)).length,
      nunique ((wv.filter (fun r => r.Purpose_clean == p)).map (fun r => r.ID)),
      nunique ((wv.filter (fun r => r.Purpose_clean == p)).map
        (fun r => r.Country_clean)),
      nunique ((wv.filter (fun r => r.Purpose_clean == p)).map
        (fun r => r.Continent)),
      round1 (((wv.filter (fun r => r.Purpose_clean == p)).length : ℚ)
        / (wv.length : ℚ) * 100)⟩ : Table6Row)))
  constructor
  · rw [(hperm.map (fun r => r.Data_Points_Count)).sum_eq, List.map_map]
    exact hsum
  · have h := counts_pct_close (ps.map (fun p =>
      (wv.filter (fun r => r.Purpose_clean == p)).length)) wv.length hn hsum
    rw [(hperm.map (fun r => r.Pct_of_Data_Points)).sum_eq, hperm.length_eq]
    simpa [List.map_map, Function.comp] using h

/-! ### Structure of the region bucketing (Table 3, claim C2) -/

theorem region_partition_main_subset (l : List (String × Nat)) :
    ∀ rc ∈ (region_partition l).1,
      rc ∈ l ∧ (rc.1 ∈ always_show ∨ REGION_COUNT_THRESHOLD ≤ rc.2) := by
  induction l with
  | nil => intro rc h; simp [region_partition] at h
  | cons x rest ih =>
    intro rc h
    simp only [region_partition] at h
    split_ifs at h with h1 h2
    · rcases List.mem_cons.mp h with rfl | hm
      · exact ⟨List.mem_cons_self _ _, Or.inl h1⟩
      · obtain ⟨ha, hb⟩ := ih rc hm
        exact ⟨List.mem_cons_of_mem _ ha, hb⟩
    · rcases List.mem_cons.mp h with rfl | hm
      · exact ⟨List.mem_cons_self _ _, Or.inr h2⟩
      · obtain ⟨ha, hb⟩ := ih rc hm
        exact ⟨List.mem_cons_of_mem _ ha, hb⟩
    · obtain ⟨ha, hb⟩ := ih rc h
      exact ⟨List.mem_cons_of_mem _ ha, hb⟩

theorem region_partition_mem_main (l : List (String × Nat)) :
    ∀ rc ∈ l, rc.1 ∈ always_show ∨ REGION_COUNT_THRESHOLD ≤ rc.2 →
      rc ∈ (region_partition l).1 := by
  induction l with
  | nil => intro rc h; simp at h
  | cons x rest ih =>
    intro rc hrc hcond
    simp only [region_partition]
    rcases List.mem_cons.mp hrc with rfl | hm
    · split_ifs with h1 h2
      · exact List.mem_cons_self _ _
      · exact List.mem_cons_self _ _
      · rcases hcond with hc | hc
        · exact absurd hc h1
        · exact absurd hc h2
    · have hrec := ih rc hm hcond
      split_ifs <;> first
        | exact List.mem_cons_of_mem _ hrec
        | exact hrec

theorem region_partition_other_eq (l : List (String × Nat)) :
    (region_partition l).2.1
      = ((l.filter (fun rc =>
          decide (rc.2 < REGION_COUNT_THRESHOLD ∧ rc.1 ∉ always_show))).map
            (fun rc => rc.2)).sum := by
  induction l with
  | nil => simp [region_partition]
  | cons x rest ih =>
    simp only [region_partition, List.filter_cons, decide_eq_true_eq]
    by_cases h1 : x.1 ∈ always_show
    · have hf : ¬(x.2 < REGION_COUNT_THRESHOLD ∧ x.1 ∉ always_show) :=
        fun hc => hc.2 h1
      rw [if_pos h1, if_neg hf]
      exact ih
    · by_cases h2 : REGION_COUNT_THRESHOLD ≤ x.2
      · have hf : ¬(x.2 < REGION_COUNT_THRESHOLD ∧ x.1 ∉ always_show) :=
          fun hc => absurd hc.1 (Nat.not_lt.mpr h2)
        rw [if_neg h1, if_pos h2, if_neg hf]
        exact ih
      · have hf : x.2 < REGION_COUNT_THRESHOLD ∧ x.1 ∉ always_show :=
          ⟨Nat.lt_of_not_le h2, h1⟩
        rw [if_neg h1, if_neg h2, if_pos hf]
        simp only [List.map_cons, List.sum_cons]
        rw [show (region_partition rest).2.1
            = ((rest.filter (fun rc =>
                decide (rc.2 < REGION_COUNT_THRESHOLD ∧ rc.1 ∉ always_show))).map
                  (fun rc => rc.2)).sum from ih]
        omega

theorem value_counts_mem (xs : List String) (rc : String × Nat) :
    rc ∈ value_counts xs ↔ rc.1 ∈ xs.dedup ∧ rc.2 = xs.count rc.1 := by
  rw [value_counts, (List.perm_insertionSort pairCountGe _).mem_iff]
  constructor
  · intro h
    obtain ⟨w, hw, hwe⟩ := List.mem_map.mp h
    cases hwe
    exact ⟨hw, rfl⟩
  · rintro ⟨h1, h2⟩
    refine List.mem_map.mpr ⟨rc.1, h1, ?_⟩
    obtain ⟨a, b⟩ := rc
    simp only at h2 ⊢
    rw [h2]

/-! ### Rolling-mean characterization (Chart 1, claim C5) -/

theorem rolling_length (w m : Nat) (xs : List ℚ) :
    (rolling_mean_centered w m xs).length = xs.length := by
  simp [rolling_mean_centered]

theorem rolling_none_iff (w m : Nat) (xs : List ℚ) (i : Nat)
    (hi : i < xs.length) :
    ((rolling_mean_centered w m xs).getD i none = none
      ↔ periods_in_window xs.length i (w / 2) < m) := by
  have hlen : ((xs.drop (i - w / 2)).take
        (min (i + w / 2) (xs.length - 1) + 1 - (i - w / 2))).length
      = min (i + w / 2) (xs.length - 1) + 1 - (i - w / 2) := by
    rw [List.length_take, List.length_drop]
    omega
  have hcount : periods_in_window xs.length i (w / 2)
      = min (i + w / 2) (xs.length - 1) + 1 - (i - w / 2) := by
    rw [periods_in_window]
    have hfc : ∀ j ∈ List.range xs.length,
        (decide (i ≤ j + w / 2) && decide (j ≤ i + w / 2))
          = decide (i - w / 2 ≤ j ∧ j ≤ min (i + w / 2) (xs.length - 1)) := by
      intro j hj
      have hjn : j < xs.length := List.mem_range.mp hj
      rw [Bool.and_eq_decide]
      exact decide_eq_decide.mpr (by omega)
    rw [List.filter_congr hfc]
    have hfin : ((List.range xs.length).filter (fun j =>
          decide (i - w / 2 ≤ j ∧ j ≤ min (i + w / 2) (xs.length - 1)))).length
        = ((Finset.range xs.length).filter (fun j =>
            i - w / 2 ≤ j ∧ j ≤ min (i + w / 2) (xs.length - 1))).card := rfl
    rw [hfin]
    have hicc : (Finset.range xs.length).filter (fun j =>
          i - w / 2 ≤ j ∧ j ≤ min (i + w / 2) (xs.length - 1))
        = Finset.Icc (i - w / 2) (min (i + w / 2) (xs.length - 1)) := by
      ext j
      simp only [Finset.mem_filter, Finset.mem_range, Finset.mem_Icc]
      omega
    rw [hicc, Nat.card_Icc]
  have hval : (rolling_mean_centered w m xs).getD i none
      = (if m ≤ ((xs.drop (i - w / 2)).take
            (min (i + w / 2) (xs.length - 1) + 1 - (i - w / 2))).length
         then some (((xs.drop (i - w / 2)).take
              (min (i + w / 2) (xs.length - 1) + 1 - (i - w / 2))).sum
            / (((xs.drop (i - w / 2)).take
              (min (i + w / 2) (xs.length - 1) + 1 - (i - w / 2))).length : ℚ))
         else none) := by
    rw [List.getD_eq_getElem?_getD, rolling_mean_centered]
    rw [List.getElem?_map, List.getElem?_range hi]
    rfl
  rw [hval, hlen, hcount]
  split_ifs with h
  · simp only [Option.some_ne_none, false_iff]
    omega
  · simp only [true_iff]
    omega

/-! ### Claims -/

/-- Claim C1, amended: for Tables 1, 2, 3, 4 and 6, on every *non-empty*
input table whose `Decade` values all lie in the six fixed year-range bins,
the sum of the `Count` values of all rows other than the final Total row
equals the Total row's `Count`, and the non-total `Percentage` values sum to
100.0 up to the one-decimal rounding of each entry (at most `1/20` error per
row).  As stated, the claim fails for the empty table and for `Decade`
values outside the fixed bins — see the counterexample. -/
theorem c1_totals_amended
    (cls methods regions decades : List String) (wv : List WVRow)
    (hcls : cls ≠ []) (hm : methods ≠ []) (hr : regions ≠ [])
    (hd : decades ≠ []) (hdec : ∀ d ∈ decades, d ∈ decade_order) (hwv : wv ≠ [])
    (t1 : List Table1Row) (t2 t3 t4 : List Row3) (t6 : List Table6Row)
    (h1 : generate_classification_table cls = some t1)
    (h2 : generate_method_table methods = some t2)
    (h3 : generate_region_table regions = some t3)
    (h4 : generate_year_table decades = some t4)
    (h6 : generate_wv_purpose_table wv = some t6) :
    ((t1.dropLast.map (fun r => r.Count)).sum = (t1.getLastD default).Count
      ∧ |(t1.dropLast.map (fun r => r.Percentage)).sum - 100|
          ≤ (t1.dropLast.length : ℚ) * (1 / 20))
    ∧ ((t2.dropLast.map (fun r => r.Count)).sum = (t2.getLastD default).Count
      ∧ |(t2.dropLast.map (fun r => r.Percentage)).sum - 100|
          ≤ (t2.dropLast.length : ℚ) * (1 / 20))
    ∧ ((t3.dropLast.map (fun r => r.Count)).sum = (t3.getLastD default).Count
      ∧ |(t3.dropLast.map (fun r => r.Percentage)).sum - 100|
          ≤ (t3.dropLast.length : ℚ) * (1 / 20))
    ∧ ((t4.dropLast.map (fun r => r.Count)).sum = (t4.getLastD default).Count
      ∧ |(t4.dropLast.map (fun r => r.Percentage)).sum - 100|
          ≤ (t4.dropLast.length : ℚ) * (1 / 20))
    ∧ ((t6.dropLast.map (fun r => r.Data_Points_Count)).sum
          = (t6.getLastD default).Data_Points_Count
      ∧ |(t6.dropLast.map (fun r => r.Pct_of_Data_Points)).sum - 100|
          ≤ (t6.dropLast.length : ℚ) * (1 / 20)) := by
  have e1 : cls.length ≠ 0 := fun h => hcls (List.length_eq_zero.mp h)
  have e2 : methods.length ≠ 0 := fun h => hm (List.length_eq_zero.mp h)
  have e3 : regions.length ≠ 0 := fun h => hr (List.length_eq_zero.mp h)
  have e4 : decades.length ≠ 0 := fun h => hd (List.length_eq_zero.mp h)
  have e6 : wv.length ≠ 0 := fun h => hwv (List.length_eq_zero.mp h)
  exact ⟨t1_sums cls e1 t1 h1, t2_sums methods e2 t2 h2,
    t3_sums regions e3 t3 h3, t4_sums decades e4 hdec t4 h4,
    t6_sums wv e6 t6 h6⟩

/-- Claim C1, counterexample: with a single row whose `Decade` value
`"2026–2030"` is outside the six fixed bins, Table 4's non-total counts sum
to 0 while the Total row's count is 1; and on the empty classification table
Table 1 has no non-total rows, so its percentages sum to 0, not 100. -/
theorem c1_totals_counterexample :
    ((generate_year_table ["2026–2030"]).map (fun t =>
        ((t.dropLast.map (fun r => r.Count)).sum, (t.getLastD default).Count))
      = some (0, 1))
    ∧ ¬(|((((generate_classification_table []).getD []).dropLast.map
            (fun r => r.Percentage)).sum - 100)|
          ≤ ((((generate_classification_table []).getD []).dropLast.length : ℚ)
              * (1 / 20))) := by
  constructor
  · decide
  · have h : (generate_classification_table []).getD []
        = [⟨"Total", "", 0, 100⟩] := rfl
    rw [h]
    simp only [List.dropLast_single, List.map_nil, List.sum_nil,
      List.length_nil]
    norm_num

/-- Claim C1, witness at concrete non-empty inputs. -/
theorem c1_totals_amended_witness :
    ((((generate_classification_table ["A", "A", "B"]).getD []).dropLast.map
          (fun r => r.Count)).sum
        = ((((generate_classification_table ["A", "A", "B"]).getD
            [])).getLastD default).Count
      ∧ |((((generate_classification_table ["A", "A", "B"]).getD
            [])).dropLast.map (fun r => r.Percentage)).sum - 100|
          ≤ ((((generate_classification_table ["A", "A", "B"]).getD
            [])).dropLast.length : ℚ) * (1 / 20))
    ∧ ((((generate_method_table ["LP", "SDP"]).getD []).dropLast.map
          (fun r => r.Count)).sum
        = (((generate_method_table ["LP", "SDP"]).getD []).getLastD default).Count
      ∧ |((((generate_method_table ["LP", "SDP"]).getD [])).dropLast.map
            (fun r => r.Percentage)).sum - 100|
          ≤ (((generate_method_table ["LP", "SDP"]).getD
              []).dropLast.length : ℚ) * (1 / 20))
    ∧ ((((generate_region_table ["Norway"]).getD []).dropLast.map
          (fun r => r.Count)).sum
        = (((generate_region_table ["Norway"]).getD []).getLastD default).Count
      ∧ |((((generate_region_table ["Norway"]).getD [])).dropLast.map
            (fun r => r.Percentage)).sum - 100|
          ≤ (((generate_region_table ["Norway"]).getD
              []).dropLast.length : ℚ) * (1 / 20))
    ∧ ((((generate_year_table ["Pre-2000"]).getD []).dropLast.map
          (fun r => r.Count)).sum
        = (((generate_year_table ["Pre-2000"]).getD []).getLastD default).Count
      ∧ |((((generate_year_table ["Pre-2000"]).getD [])).dropLast.map
            (fun r => r.Percentage)).sum - 100|
          ≤ (((generate_year_table ["Pre-2000"]).getD
              []).dropLast.length : ℚ) * (1 / 20))
    ∧ ((((generate_wv_purpose_table
            [⟨"P1", "Norway", "Europe", "Hydropower", "LP", "LP detail",
              "USD/m3", 2005, none⟩]).getD []).dropLast.map
          (fun r => r.Data_Points_Count)).sum
        = (((generate_wv_purpose_table
            [⟨"P1", "Norway", "Europe", "Hydropower", "LP", "LP detail",
              "USD/m3", 2005, none⟩]).getD []).getLastD default).Data_Points_Count
      ∧ |((((generate_wv_purpose_table
            [⟨"P1", "Norway", "Europe", "Hydropower", "LP", "LP detail",
              "USD/m3", 2005, none⟩]).getD [])).dropLast.map
            (fun r => r.Pct_of_Data_Points)).sum - 100|
          ≤ (((generate_wv_purpose_table
            [⟨"P1", "Norway", "Europe", "Hydropower", "LP", "LP detail",
              "USD/m3", 2005, none⟩]).getD []).dropLast.length : ℚ)
              * (1 / 20)) :=
  c1_totals_amended ["A", "A", "B"] ["LP", "SDP"] ["Norway"] ["Pre-2000"]
    [⟨"P1", "Norway", "Europe", "Hydropower", "LP", "LP detail", "USD/m3",
      2005, none⟩]
    (by decide) (by decide) (by decide) (by decide) (by decide) (by decide)
    _ _ _ _ _ rfl rfl rfl rfl rfl

/-- Claim C2: in Table 3, every region whose count is below the threshold 3
and that is not a sentinel category appears in no individually-listed
(`main_entries`) row; the Other bucket's count is the sum, over the distinct
below-threshold non-sentinel regions (each counted exactly once), of their
counts; and a sentinel category present in the data always gets an individual
row, whatever its count. -/
theorem c2_region_bucketing (regions : List String) (v : String)
    (_hv : v ∈ regions) (hc : regions.count v < REGION_COUNT_THRESHOLD)
    (hs : v ∉ always_show) :
    v ∉ (region_main_entries regions).map (fun rc => rc.1)
    ∧ region_other_count regions
        = ((regions.dedup.filter (fun w =>
              decide (regions.count w < REGION_COUNT_THRESHOLD
                ∧ w ∉ always_show))).map
            (fun w => regions.count w)).sum
    ∧ (∀ s ∈ always_show, s ∈ regions →
        (s, regions.count s) ∈ region_main_entries regions) := by
  refine ⟨?_, ?_, ?_⟩
  · intro hmem
    obtain ⟨rc, hrc, hrc1⟩ := List.mem_map.mp hmem
    obtain ⟨hrcvc, hcond⟩ := region_partition_main_subset _ rc hrc
    have hvc := (value_counts_mem regions rc).mp hrcvc
    rcases hcond with hsent | hge
    · rw [hrc1] at hsent
      exact hs hsent
    · rw [hvc.2, hrc1] at hge
      omega
  · rw [region_other_count, region_partition_other_eq]
    have hperm := (List.perm_insertionSort pairCountGe
      (regions.dedup.map (fun w => (w, regions.count w)))).filter
      (fun rc => decide (rc.2 < REGION_COUNT_THRESHOLD ∧ rc.1 ∉ always_show))
    rw [value_counts, (hperm.map (fun rc => rc.2)).sum_eq, List.filter_map,
      List.map_map]
    rfl
  · intro s hsshow hsreg
    apply region_partition_mem_main
    · exact (value_counts_mem regions (s, regions.count s)).mpr
        ⟨List.mem_dedup.mpr hsreg, rfl⟩
    · exact Or.inl hsshow

/-- Claim C2, witness: `"Brazil"` (count 1 < 3) is bucketed while the
sentinel `"Not specified"` (count 1) keeps its individual row. -/
theorem c2_region_bucketing_witness :
    "Brazil" ∉ (region_main_entries
        ["Norway", "Norway", "Norway", "Brazil", "Not specified"]).map
          (fun rc => rc.1)
    ∧ region_other_count ["Norway", "Norway", "Norway", "Brazil", "Not specified"]
        = ((["Norway", "Norway", "Norway", "Brazil",
              "Not specified"].dedup.filter (fun w =>
              decide (["Norway", "Norway", "Norway", "Brazil",
                  "Not specified"].count w < REGION_COUNT_THRESHOLD
                ∧ w ∉ always_show))).map
            (fun w => ["Norway", "Norway", "Norway", "Brazil",
              "Not specified"].count w)).sum
    ∧ (∀ s ∈ always_show,
        s ∈ ["Norway", "Norway", "Norway", "Brazil", "Not specified"] →
        (s, ["Norway", "Norway", "Norway", "Brazil", "Not specified"].count s)
          ∈ region_main_entries
            ["Norway", "Norway", "Norway", "Brazil", "Not specified"]) :=
  c2_region_bucketing ["Norway", "Norway", "Norway", "Brazil", "Not specified"]
    "Brazil" (by decide) (by decide) (by decide)

/-- Claim C4, amended: in Table 3 all non-total rows — the individually
listed regions *and* the Other bucket together — are sorted by descending
count, and the Total row is last.  As stated (Other appended after the sorted
individual rows), the claim fails: the Other row takes part in the sort and
can precede individually-listed rows — see the counterexample. -/
theorem c4_region_order_amended (regions : List String) (hr : regions ≠ [])
    (t3 : List Row3) (h3 : generate_region_table regions = some t3) :
    List.Sorted row3CountGe t3.dropLast
    ∧ t3.getLastD default = ⟨"Total", regions.length, 100⟩ := by
  have hn : regions.length ≠ 0 := fun h => hr (List.length_eq_zero.mp h)
  rw [generate_region_table_eq regions hn] at h3
  obtain rfl := (Option.some.inj h3).symm
  rw [List.dropLast_concat, List.getLastD_concat]
  exact ⟨List.sorted_insertionSort row3CountGe _, rfl⟩

/-- Claim C4, counterexample: with `"US"` appearing three times and five
singleton regions, the Other bucket (count 5) is sorted *before* the
individually-listed `"US"` row (count 3) instead of being appended after it. -/
theorem c4_region_order_counterexample :
    (generate_region_table ["US", "US", "US", "V", "W", "X", "Y", "Z"]).map
        (List.map (fun r => r.label))
      = some ["Other (5 countries/regions)", "US", "Total"]
    ∧ ("US", 3) ∈ region_main_entries ["US", "US", "US", "V", "W", "X", "Y", "Z"] := by
  constructor
  · decide
  · decide

/-- Claim C4, witness for the amended ordering at a concrete input. -/
theorem c4_region_order_amended_witness :
    List.Sorted row3CountGe
      ((generate_region_table ["Norway", "Norway", "Norway", "Spain"]).getD
        []).dropLast
    ∧ ((generate_region_table ["Norway", "Norway", "Norway", "Spain"]).getD
        []).getLastD default = ⟨"Total", 4, 100⟩ :=
  c4_region_order_amended ["Norway", "Norway", "Norway", "Spain"] (by decide)
    _ rfl

/-- Claim C8: on the three-row classification column `{A, A, B}`, Table 1 is
exactly `A: 2 (66.7)`, `B: 1 (33.3)`, `Total: 3 (100.0)`, in that order. -/
theorem c8_table1_concrete :
    (generate_classification_table ["A", "A", "B"]).map
      (List.map (fun r => (r.Category, r.Count, r.Percentage)))
      = some [("A", 2, 667/10), ("B", 1, 333/10), ("Total", 3, 100)] := by
  simp [generate_classification_table, pctOpt, List.insertionSort,
    List.orderedInsert, str_le, charListLe, CATEGORY_NAMES, mapMO,
    classification_row, List.dedup]
  norm_num [round1]

/-- A step execution that succeeds with all expected outputs present. -/
def ok_exec : StepExec := ⟨true, .completed 0, []⟩

/-- A step execution that exits with code 1. -/
def fail_exec : StepExec := ⟨true, .completed 1, []⟩

/-- Claim C6: a missing expected output file after a successfully exited step
is reported as a warning and the step still counts as successful (not fatal);
a step fails on child-process timeout or non-zero exit code (or a raised
exception, or a missing script); and in a full run (step argument 0) a failed
step halts all subsequent steps — the recorded results are the successful
prefix followed by the single failure, with nothing executed after it. -/
theorem c6_step_failure_semantics :
    (∀ e : StepExec, e.script_exists = true → e.result = .completed 0 →
      run_step e = (true, e.missing_outputs))
    ∧ (∀ e : StepExec, e.result = .timedOut → (run_step e).1 = false)
    ∧ (∀ e : StepExec, ∀ code : Int, e.result = .completed code → code ≠ 0 →
        (run_step e).1 = false)
    ∧ (∀ (es₁ : List StepExec) (e : StepExec) (es₂ : List StepExec),
        (∀ x ∈ es₁, (run_step x).1 = true) → (run_step e).1 = false →
        run_sequence 0 (es₁ ++ e :: es₂)
          = es₁.map (fun x => (run_step x).1) ++ [false]) := by
  refine ⟨?_, ?_, ?_, ?_⟩
  · intro e hse hres
    simp [run_step, hse, hres]
  · intro e hres
    cases hse : e.script_exists <;> simp [run_step, hse, hres]
  · intro e code hres hcode
    cases hse : e.script_exists <;> simp [run_step, hse, hres, hcode]
  · intro es₁ e es₂ hok hfail
    induction es₁ with
    | nil => simp [run_sequence, hfail]
    | cons x xs ih =>
      have hx := hok x (List.mem_cons_self x xs)
      have ih2 := ih (fun y hy => hok y (List.mem_cons_of_mem x hy))
      simp only [List.cons_append, run_sequence, hx, List.map_cons,
        List.append_eq]
      rw [ih2]
      simp

/-- Claim C6, witness: a concrete run where step 2 fails and step 3 is never
executed, and a concrete successful step with a missing output that is only
warned about. -/
theorem c6_step_failure_semantics_witness :
    run_step ⟨true, .completed 0, ["table_1_classification.csv"]⟩
        = (true, ["table_1_classification.csv"])
    ∧ run_sequence 0 ([ok_exec] ++ fail_exec :: [ok_exec])
        = [ok_exec].map (fun x => (run_step x).1) ++ [false] :=
  ⟨c6_step_failure_semantics.1 ⟨true, .completed 0,
      ["table_1_classification.csv"]⟩ (by decide) (by decide),
   c6_step_failure_semantics.2.2.2 [ok_exec] fail_exec [ok_exec]
      (by decide) (by decide)⟩

/-- Claim C7, amended: when the database file is missing, each of the three
generators and the pipeline runner abort with the descriptive message before
doing any work (no table is read, no output value is produced), and the
runner exits 1; the runner also exits 1 when any executed step fails and when
a *positive* step-number argument matches no pipeline step.  As stated the
claim fails: a *negative* step-number argument — invalid per the CLI contract
(0 = all steps, 1–3 = one generator) — is silently treated like 0 (run all
steps) and the runner exits 0 when all steps succeed; see the
counterexample. -/
theorem c7_abort_and_exit_codes_amended :
    (∀ now : String, summary_tables_main none now = .error db_missing_msg)
    ∧ analytical_charts_main none = .error db_missing_msg
    ∧ completeness_heatmap_main none = .error db_missing_msg
    ∧ (∀ (step_arg : Int) (behavior : Int → StepExec),
        runner_main false step_arg behavior = 1)
    ∧ (∀ (step_arg : Int) (behavior : Int → StepExec), 0 < step_arg →
        step_arg ∉ STEP_NUMBERS → runner_main true step_arg behavior = 1)
    ∧ (∀ (step_arg : Int) (behavior : Int → StepExec),
        false ∈ runner_results step_arg behavior →
        runner_main true step_arg behavior = 1) := by
  refine ⟨fun _ => rfl, rfl, rfl, fun _ _ => rfl, ?_, ?_⟩
  · intro step_arg behavior hpos hnot
    have hempty : runner_steps_to_run step_arg = [] := by
      rw [runner_steps_to_run, if_pos hpos]
      exact List.filter_eq_nil_iff.mpr (fun a ha hq => hnot (by
        have : a = step_arg := by simpa using hq
        rw [← this]; exact ha))
    rw [runner_main]
    simp [check_prerequisites, hpos, hempty]
  · intro step_arg behavior hfalse
    rw [runner_main]
    have hcount : 0 < (runner_results step_arg behavior).countP
        (fun b => b = false) := by
      rw [List.countP_pos_iff]
      exact ⟨false, hfalse, by simp⟩
    rw [if_neg (by simp [check_prerequisites])]
    by_cases hb : 0 < step_arg ∧ runner_steps_to_run step_arg = []
    · rw [if_pos hb]
    · rw [if_neg hb, if_pos hcount]

/-- Claim C7, counterexample: with the database present and all steps
succeeding, the step-number argument `-1` — not a valid step number (0 = all
steps, 1–3 = one generator) — is accepted, treated as "run all steps", and
the runner exits 0 rather than non-zero. -/
theorem c7_invalid_step_counterexample :
    runner_main true (-1) (fun _ => ok_exec) = 0
    ∧ (-1 : Int) ∉ (0 :: STEP_NUMBERS) := by
  constructor
  · decide
  · decide

/-- Claim C7, witness: a missing database aborts every entry point, and a
positive unmatched step number exits 1. -/
theorem c7_abort_and_exit_codes_amended_witness :
    summary_tables_main none "2026-02-03 12:00:00" = .error db_missing_msg
    ∧ runner_main true 7 (fun _ => ok_exec) = 1 :=
  ⟨c7_abort_and_exit_codes_amended.1 "2026-02-03 12:00:00",
   c7_abort_and_exit_codes_amended.2.2.2.2.1 7 (fun _ => ok_exec)
      (by decide) (by decide)⟩

/-- Claim C9: the six CSV files exported by the summary-tables generator are
a deterministic function of the input database alone — two runs at different
wall-clock times produce byte-identical CSV contents (only the formatted text
report embeds the timestamp).  The chart and heatmap generators write no CSV
files. -/
theorem c9_csv_determinism (db_file : Option Database) (now₁ now₂ : String) :
    (summary_tables_main db_file now₁).map summary_csv_exports
      = (summary_tables_main db_file now₂).map summary_csv_exports := by
  cases db_file with
  | none => rfl
  | some db =>
    cases h : summary_tables_core db with
    | error e =>
      simp only [summary_tables_main, load_data, bind, Except.bind,
        Functor.map, Except.map, h]
    | ok ts =>
      simp only [summary_tables_main, load_data, bind, Except.bind,
        Functor.map, Except.map, h, summary_csv_exports, export_tables,
        pure, Except.pure]

/-- Claim C10: the table generators divide by the number of input rows with
no zero guard.  On non-empty input every percentage of Tables 1–4 is
well-defined (each generator returns a table rather than raising); on the
empty input `generate_year_table` raises `ZeroDivisionError`, and its error
branch is reachable exactly when the input has zero rows. -/
theorem c10_zero_division (cls methods regions decades : List String) :
    (cls ≠ [] → ∃ t, generate_classification_table cls = some t)
    ∧ (methods ≠ [] → ∃ t, generate_method_table methods = some t)
    ∧ (regions ≠ [] → ∃ t, generate_region_table regions = some t)
    ∧ (decades ≠ [] → ∃ t, generate_year_table decades = some t)
    ∧ (generate_year_table decades = none ↔ decades = []) := by
  refine ⟨fun h => ⟨_, generate_classification_table_eq cls
      (fun h0 => h (List.length_eq_zero.mp h0))⟩,
    fun h => ⟨_, generate_method_table_eq methods
      (fun h0 => h (List.length_eq_zero.mp h0))⟩,
    fun h => ⟨_, generate_region_table_eq regions
      (fun h0 => h (List.length_eq_zero.mp h0))⟩,
    fun h => ⟨_, generate_year_table_eq decades
      (fun h0 => h (List.length_eq_zero.mp h0))⟩, ?_, ?_⟩
  · intro hnone
    by_contra hne
    rw [generate_year_table_eq decades
      (fun h0 => hne (List.length_eq_zero.mp h0))] at hnone
    exact Option.some_ne_none _ hnone
  · rintro rfl
    rfl

/-- Claim C3, amended: Chart 2's individually shown region bars are
*rank-based*, not threshold-based: every entry of the top-15 list is shown,
at most 15 regular regions are shown, a regular region is shown individually
exactly when it is among the top 15 by count, and the two sentinel categories
present in the data are always shown individually. -/
theorem c3_chart2_top15_amended (regions : List String) (v : String) :
    ((v, regions.count v) ∈ chart2_top_15 regions →
      (v, regions.count v) ∈ chart2_display_data regions)
    ∧ (chart2_top_15 regions).length ≤ 15
    ∧ (v ∉ special_categories →
        v ≠ s!"Other ({chart2_n_other regions} regions)" →
        ((v, regions.count v) ∈ chart2_display_data regions ↔
          (v, regions.count v) ∈ chart2_top_15 regions))
    ∧ (v ∈ special_categories → v ∈ regions →
        (v, regions.count v) ∈ chart2_display_data regions) := by
  refine ⟨?_, ?_, ?_, ?_⟩
  · intro hmem
    exact List.mem_append_right _ (List.mem_reverse.mpr hmem)
  · rw [chart2_top_15, List.length_take]
    exact min_le_left _ _
  · intro hvs hvo
    constructor
    · intro hd
      rcases List.mem_append.mp hd with hd1 | hd2
      · rcases List.mem_append.mp hd1 with hA | hB
        · obtain ⟨c, hcf, hce⟩ := List.mem_map.mp hA
          have hcs : c ∈ special_categories := (List.mem_filter.mp hcf).1
          cases hce
          exact absurd hcs hvs
        · by_cases hoc : 0 < chart2_other_count regions
          · rw [if_pos hoc] at hB
            rcases List.mem_singleton.mp hB with he
            exact absurd (congrArg Prod.fst he) hvo
          · rw [if_neg hoc] at hB
            exact absurd hB (List.not_mem_nil _)
      · exact List.mem_reverse.mp hd2
    · intro hmem
      exact List.mem_append_right _ (List.mem_reverse.mpr hmem)
  · intro hvsp hvreg
    refine List.mem_append_left _ (List.mem_append_left _ ?_)
    refine List.mem_map.mpr ⟨v, List.mem_filter.mpr ⟨hvsp, ?_⟩, rfl⟩
    simpa using List.count_pos_iff.mpr hvreg

/-- Claim C3, counterexample: `"Spain"` with count 1 — below Table 3's
threshold 3 and not a sentinel, hence absent from Table 3's
individually-listed rows — is nevertheless shown as an individual bar in
Chart 2, because Chart 2 cuts by rank (top 15), not by the count
threshold. -/
theorem c3_chart2_counterexample :
    ("Spain", 1) ∈ chart2_display_data ["Spain"]
    ∧ List.count "Spain" ["Spain"] < REGION_COUNT_THRESHOLD
    ∧ "Spain" ∉ always_show
    ∧ region_main_entries ["Spain"] = [] := by
  refine ⟨?_, by decide, by decide, by decide⟩
  decide

/-- Claim C3, witness: a top-ranked region and a sentinel both get a bar. -/
theorem c3_chart2_top15_amended_witness :
    ("Norway", List.count "Norway" ["Not specified", "Norway", "Norway"])
        ∈ chart2_display_data ["Not specified", "Norway", "Norway"]
    ∧ ("Not specified",
        List.count "Not specified" ["Not specified", "Norway", "Norway"])
        ∈ chart2_display_data ["Not specified", "Norway", "Norway"] :=
  ⟨(c3_chart2_top15_amended ["Not specified", "Norway", "Norway"] "Norway").1
      (by decide),
   (c3_chart2_top15_amended ["Not specified", "Norway", "Norway"]
      "Not specified").2.2.2 (by decide) (by decide)⟩

/-- Claim C5: both Chart-1 rolling-mean series (window 3 with min 2 periods,
window 5 with min 3 periods) have the same length as the input series, and a
value is undefined (`none`, pandas `NaN`) at an in-range index exactly when
fewer than the minimum number of periods fall inside the centered window. -/
theorem c5_rolling_trendlines (xs : List ℚ) :
    ((rolling_mean_centered 3 2 xs).length = xs.length
      ∧ (rolling_mean_centered 5 3 xs).length = xs.length)
    ∧ (∀ i, i < xs.length →
        ((rolling_mean_centered 3 2 xs).getD i none = none ↔
          periods_in_window xs.length i (3 / 2) < 2))
    ∧ (∀ i, i < xs.length →
        ((rolling_mean_centered 5 3 xs).getD i none = none ↔
          periods_in_window xs.length i (5 / 2) < 3)) :=
  ⟨⟨rolling_length 3 2 xs, rolling_length 5 3 xs⟩,
   fun i hi => rolling_none_iff 3 2 xs i hi,
   fun i hi => rolling_none_iff 5 3 xs i hi⟩

/-- Claim C5, witness at a concrete three-year series. -/
theorem c5_rolling_trendlines_witness :
    ((rolling_mean_centered 3 2 [(1 : ℚ), 2, 5]).getD 0 none = none ↔
      periods_in_window 3 0 (3 / 2) < 2)
    ∧ ((rolling_mean_centered 5 3 [(1 : ℚ), 2, 5]).getD 0 none = none ↔
      periods_in_window 3 0 (5 / 2) < 3) :=
  ⟨(c5_rolling_trendlines [(1 : ℚ), 2, 5]).2.1 0 (by decide),
   (c5_rolling_trendlines [(1 : ℚ), 2, 5]).2.2 0 (by decide)⟩

/-- Claim C10, witness at concrete inputs. -/
theorem c10_zero_division_witness :
    (∃ t, generate_classification_table ["A"] = some t)
    ∧ (∃ t, generate_method_table ["LP"] = some t)
    ∧ (∃ t, generate_region_table ["Norway"] = some t)
    ∧ (∃ t, generate_year_table ["Pre-2000"] = some t)
    ∧ (generate_year_table [] = none ↔ ([] : List String) = []) :=
  ⟨(c10_zero_division ["A"] ["LP"] ["Norway"] ["Pre-2000"]).1 (by decide),
   (c10_zero_division ["A"] ["LP"] ["Norway"] ["Pre-2000"]).2.1 (by decide),
   (c10_zero_division ["A"] ["LP"] ["Norway"] ["Pre-2000"]).2.2.1 (by decide),
   (c10_zero_division ["A"] ["LP"] ["Norway"] ["Pre-2000"]).2.2.2.1 (by decide),
   (c10_zero_division ["A"] ["LP"] ["Norway"] []).2.2.2.2⟩

end WaterValueDB
